import Mathlib

/-!
Verification of the validated-entity model of the
`python-p4-validation-flask-sqlalchemy-validations` repository.

The repository defines a single entity `EmailAddress` with two string
fields, each guarded by a per-field validation hook that accepts a value
exactly when it contains the character `@`, plus a small session /
unit-of-work flow (add, commit, rollback, bulk delete) and a seed script.

Definitions below are shallow embeddings of the source files
`src/bin/validations.py`, `src/server/models.py` and `src/server/seed.py`.
Where the behaviour is supplied by the ORM / storage layer (an external
collaborator whose code is not in the repository), the definition is
modelled from the specification and its doc comment says so.
-/

set_option linter.unusedVariables false

deriving instance DecidableEq for Except

/-- Dynamic (Python-style) argument values reaching the validation hook:
either a string, or the non-string value `None`. -/
inductive PyVal where
  | str : String → PyVal
  | pynone : PyVal
deriving DecidableEq, Repr

/-- Python exception kinds relevant to the validation hook: `ValueError`
(raised explicitly by the hook) and `TypeError` (raised by the containment
test `'@' not in address` when `address` is not iterable). -/
inductive PyError where
  | valueError : String → PyError
  | typeError : String → PyError
deriving DecidableEq, Repr

/-- Embedding of `EmailAddress.validate_email` from `src/bin/validations.py`
(lines 21-26): `if '@' not in address: raise ValueError("failed simple email
validation")` and otherwise `return address`.  The raised error is the
`Except.error` branch; `key` is the attribute name passed by the ORM and is
not inspected by the hook. -/
def validate_email (key address : String) : Except String String :=
  if '@' ∉ address.data then
    Except.error "failed simple email validation"
  else
    Except.ok address

/-- Embedding of `EmailAddress.validate_email` from `src/server/models.py`
(lines 12-16).  Identical to the standalone variant except that the error
message is capitalised: `"Failed simple email validation"`. -/
def validate_email_models (key address : String) : Except String String :=
  if '@' ∉ address.data then
    Except.error "Failed simple email validation"
  else
    Except.ok address

/-- Dynamic-typing-aware embedding of the standalone hook: on the
non-string value `None`, the test `'@' not in address` itself raises
`TypeError` (None is not iterable) before the hook can raise its
`ValueError`. -/
def validate_email_dyn (key : String) (address : PyVal) : Except PyError PyVal :=
  match address with
  | PyVal.pynone =>
      Except.error (PyError.typeError "argument of type NoneType is not iterable")
  | PyVal.str s =>
      if '@' ∉ s.data then
        Except.error (PyError.valueError "failed simple email validation")
      else
        Except.ok (PyVal.str s)

/-- Dynamic-typing-aware embedding of the Flask-embedded hook from
`src/server/models.py`; differs from `validate_email_dyn` only in the
capitalisation of the `ValueError` message. -/
def validate_email_dyn_models (key : String) (address : PyVal) : Except PyError PyVal :=
  match address with
  | PyVal.pynone =>
      Except.error (PyError.typeError "argument of type NoneType is not iterable")
  | PyVal.str s =>
      if '@' ∉ s.data then
        Except.error (PyError.valueError "Failed simple email validation")
      else
        Except.ok (PyVal.str s)

/-- Table name of the standalone entity (`__tablename__` in
`src/bin/validations.py`). -/
def bin_tablename : String := "address"

/-- Table name of the Flask-embedded entity (`__tablename__` in
`src/server/models.py`). -/
def models_tablename : String := "emailaddress"

/-- The `EmailAddress` entity: surrogate integer key `id` (absent, i.e.
`none`, until the storage layer assigns it at flush), and the two validated
string fields `email` and `backup_email`. -/
structure EmailAddress where
  id : Option Nat
  email : String
  backup_email : String
deriving DecidableEq, Repr

/-- Construction `EmailAddress(email=..., backup_email=...)`: each keyword
argument is assigned to its attribute, which triggers the `validates`
hook; the first failing assignment aborts construction with its error and
no instance holding an invalid value is produced. -/
def EmailAddress.new (email backup_email : String) : Except String EmailAddress := do
  let e ← validate_email "email" email
  let b ← validate_email "backup_email" backup_email
  pure { id := none, email := e, backup_email := b }

/-- Mutating the `email` attribute of an existing instance: the assignment
triggers the `validates` hook; on failure the instance is unchanged. -/
def EmailAddress.setEmail (x : EmailAddress) (v : String) : Except String EmailAddress := do
  let a ← validate_email "email" v
  pure { x with email := a }

/-- Mutating the `backup_email` attribute of an existing instance; as for
`setEmail`, the hook runs before the field changes. -/
def EmailAddress.setBackupEmail (x : EmailAddress) (v : String) : Except String EmailAddress := do
  let a ← validate_email "backup_email" v
  pure { x with backup_email := a }

/-- The documented invariant on an instance: both fields contain at least
one `@` character. -/
def EmailAddress.Valid (x : EmailAddress) : Prop :=
  '@' ∈ x.email.data ∧ '@' ∈ x.backup_email.data

instance (x : EmailAddress) : Decidable x.Valid := by
  unfold EmailAddress.Valid
  infer_instance

/-- Modelled from the spec: the unit-of-work / session (SQLAlchemy
`Session` / `db.session`) is an external collaborator whose code is not in
the repository.  Per spec section 4.2 it holds staged (not yet flushed)
entities, the persisted table rows, the next surrogate key, and whether the
last commit failed. -/
structure SessionState where
  table : List EmailAddress
  staged : List EmailAddress
  nextId : Nat
  failed : Bool
deriving DecidableEq, Repr

/-- Modelled from the spec: `session.add(entity)` stages one entity. -/
def SessionState.add (st : SessionState) (e : EmailAddress) : SessionState :=
  { st with staged := st.staged ++ [e] }

/-- Modelled from the spec: `session.add_all(entities)` stages many. -/
def SessionState.add_all (st : SessionState) (es : List EmailAddress) : SessionState :=
  { st with staged := st.staged ++ es }

/-- Modelled from the spec: the flush step of commit assigns consecutive
surrogate keys starting at `n` to the staged entities, returning the rows
and the next free key. -/
def assignIds (n : Nat) : List EmailAddress → List EmailAddress × Nat
  | [] => ([], n)
  | e :: rest =>
      let p := assignIds (n + 1) rest
      ({ e with id := some n } :: p.1, p.2)

/-- Modelled from the spec: `session.commit()` flushes the staged entities
to the table, assigning surrogate keys.  A storage-level constraint is
abstracted as a boolean predicate on the resulting table; when it is
violated the commit raises `IntegrityError` (the `false` flag), nothing is
persisted and the session is left in a failed state. -/
def SessionState.commit (constraint : List EmailAddress → Bool) (st : SessionState) :
    SessionState × Bool :=
  let p := assignIds st.nextId st.staged
  let newTable := st.table ++ p.1
  if constraint newTable then
    ({ table := newTable, staged := [], nextId := p.2, failed := false }, true)
  else
    ({ st with failed := true }, false)

/-- Modelled from the spec: `session.rollback()` discards the staged
changes and the failed transaction, returning the session to a usable
state. -/
def SessionState.rollback (st : SessionState) : SessionState :=
  { st with staged := [], failed := false }

/-- Modelled from the spec: querying the store returns the persisted
rows. -/
def queryAll (st : SessionState) : List EmailAddress :=
  st.table

/-- Modelled from the spec: `EmailAddress.query.delete()` bulk-deletes all
rows of the entity table, executed immediately against storage rather than
staged in the unit-of-work (`src/server/seed.py`, line 16). -/
def query_delete (st : SessionState) : SessionState :=
  { st with table := [] }

/-- Embedding of the commit guard of `src/bin/validations.py` (lines
36-40): try `session.commit()`; on `IntegrityError` print the fixed message
`"Integrity violation blocked!"` and call `session.rollback()`.  No retry
of the failed commit is attempted.  Returns the resulting session state and
the printed message, if any. -/
def commitCatchingIntegrity (constraint : List EmailAddress → Bool) (st : SessionState) :
    SessionState × Option String :=
  let r := SessionState.commit constraint st
  if r.2 then
    (r.1, none)
  else
    (r.1.rollback, some "Integrity violation blocked!")

/-- Embedding of `email = EmailAddress(...); session.add(email)` from
`src/bin/validations.py` (lines 33-34): when construction raises, the
exception propagates before `add` runs, so the session is untouched and no
entity is staged. -/
def tryInsert (st : SessionState) (email backup_email : String) :
    SessionState × Option String :=
  match EmailAddress.new email backup_email with
  | Except.error m => (st, some m)
  | Except.ok e => (st.add e, none)

/-- The constant used for every seeded row in `src/server/seed.py`. -/
def seedConstant : String := "email@email.com"

/-- Embedding of the seed loop of `src/server/seed.py` (lines 19-21):
`for n in range(25): em = EmailAddress(email='email@email.com',
backup_email='email@email.com'); emails.append(em)`.  Each construction
runs the validation hook, so the result is fallible in principle. -/
def buildSeedEmails : Nat → Except String (List EmailAddress)
  | 0 => Except.ok []
  | n + 1 => do
      let rest ← buildSeedEmails n
      let em ← EmailAddress.new seedConstant seedConstant
      pure (rest ++ [em])

/-- Embedding of the seed routine of `src/server/seed.py` (lines 14-26):
within the application context, delete all rows, stage 25 constant rows via
`add_all`, and commit once.  The schema declares no storage constraint, so
the commit constraint is trivially satisfied.  The routine runs on a fresh
session over the given starting table state. -/
def seed (table : List EmailAddress) (nextId : Nat) : Except String (SessionState × Bool) := do
  let st1 := query_delete { table := table, staged := [], nextId := nextId, failed := false }
  let emails ← buildSeedEmails 25
  pure (SessionState.commit (fun _ => true) (st1.add_all emails))

/-- Modelled from the spec: schema state for `base.metadata.create_all`
(`src/bin/validations.py`, line 31) — the set of existing tables plus the
persisted rows, which schema creation never touches. -/
structure DBSchema where
  tables : List String
  rows : List EmailAddress
deriving DecidableEq, Repr

/-- Modelled from the spec: `create_all` creates every declared table that
does not already exist and leaves existing tables and data unchanged
(spec section 4.3). -/
def create_all (declared : List String) (s : DBSchema) : DBSchema :=
  { s with tables := s.tables ++ declared.filter (fun t => decide (t ∉ s.tables)) }

/-- Discriminator for the dynamic results: did evaluation end in a
`TypeError`? -/
def isTypeError : Except PyError PyVal → Bool
  | Except.error (PyError.typeError _) => true
  | _ => false

/-- Flushing assigns a key to every staged entity and changes nothing
else, so it preserves the number of rows. -/
theorem assignIds_length (n : Nat) (l : List EmailAddress) :
    (assignIds n l).1.length = l.length := by
  induction l generalizing n with
  | nil => rfl
  | cons e rest ih => simp [assignIds, ih]

/-- Every flushed row comes from a staged entity with the same `email` and
`backup_email` fields and carries an assigned (non-null) key. -/
theorem assignIds_mem (n : Nat) (l : List EmailAddress) (e : EmailAddress)
    (h : e ∈ (assignIds n l).1) :
    ∃ e0 ∈ l, e.email = e0.email ∧ e.backup_email = e0.backup_email ∧
      e.id.isSome = true := by
  induction l generalizing n with
  | nil => simp [assignIds] at h
  | cons a rest ih =>
      simp only [assignIds, List.mem_cons] at h
      rcases h with rfl | h
      · exact ⟨a, List.mem_cons_self a rest, rfl, rfl, rfl⟩
      · rcases ih (n + 1) h with ⟨e0, hm, h1, h2, h3⟩
        exact ⟨e0, List.mem_cons_of_mem a hm, h1, h2, h3⟩

/-- C1: for every string address assigned to `email` or `backup_email` (at
construction or by mutation), the validation hook returns the address
unchanged when it contains `@`, and otherwise raises the value error, the
field is never set to the invalid value, and no entity with that value is
staged or persisted (the session is untouched). -/
theorem C1_validation_hook_total (key address other : String) (x : EmailAddress)
    (st : SessionState) :
    ('@' ∈ address.data → validate_email key address = Except.ok address) ∧
    ('@' ∉ other.data →
      EmailAddress.new address other = Except.error "failed simple email validation") ∧
    ('@' ∉ address.data →
      validate_email key address = Except.error "failed simple email validation" ∧
      EmailAddress.new address other = Except.error "failed simple email validation" ∧
      x.setEmail address = Except.error "failed simple email validation" ∧
      x.setBackupEmail address = Except.error "failed simple email validation" ∧
      tryInsert st address other = (st, some "failed simple email validation")) := by
  refine ⟨fun h => by simp [validate_email, h], fun h => ?_, fun h => ?_⟩
  · by_cases ha : '@' ∈ address.data <;>
      simp [EmailAddress.new, validate_email, ha, h, Bind.bind, Except.bind]
  · refine ⟨by simp [validate_email, h], ?_, ?_, ?_, ?_⟩
    · simp [EmailAddress.new, validate_email, h, Bind.bind, Except.bind]
    · simp [EmailAddress.setEmail, validate_email, h, Bind.bind, Except.bind]
    · simp [EmailAddress.setBackupEmail, validate_email, h, Bind.bind, Except.bind]
    · simp [tryInsert, EmailAddress.new, validate_email, h, Bind.bind, Except.bind]

/-- Witness for C1 at concrete inputs: a valid address passes unchanged
and an invalid one is rejected with the value error. -/
theorem C1_validation_hook_total_witness :
    validate_email "email" "a@b" = Except.ok "a@b" ∧
    EmailAddress.new "a@b" "nope" = Except.error "failed simple email validation" ∧
    validate_email "email" "nope" = Except.error "failed simple email validation" := by
  have h := C1_validation_hook_total "email" "a@b" "nope"
    ⟨none, "a@b", "c@d"⟩ ⟨[], [], 0, false⟩
  have h2 := C1_validation_hook_total "email" "nope" "x@y"
    ⟨none, "a@b", "c@d"⟩ ⟨[], [], 0, false⟩
  exact ⟨h.1 (by decide), h.2.1 (by decide), (h2.2.2 (by decide)).1⟩

/-- C2: the `@`-containment invariant holds for every persisted instance
and is established at assignment time: construction only ever yields valid
instances, mutating either field keeps the other unchanged and the new
value valid, and committing a session whose table and staged entities are
valid leaves only valid rows in the table (whether or not the commit
succeeds). -/
theorem C2_persisted_invariant :
    (∀ (e b : String) (x : EmailAddress),
      EmailAddress.new e b = Except.ok x → x.Valid) ∧
    (∀ (x y : EmailAddress) (v : String), x.setEmail v = Except.ok y →
      '@' ∈ y.email.data ∧ y.backup_email = x.backup_email) ∧
    (∀ (x y : EmailAddress) (v : String), x.setBackupEmail v = Except.ok y →
      '@' ∈ y.backup_email.data ∧ y.email = x.email) ∧
    (∀ (st : SessionState) (c : List EmailAddress → Bool),
      (∀ e ∈ st.table, e.Valid) → (∀ e ∈ st.staged, e.Valid) →
      ∀ e ∈ (SessionState.commit c st).1.table, e.Valid) := by
  refine ⟨?_, ?_, ?_, ?_⟩
  · intro e b x h
    by_cases he : '@' ∈ e.data <;> by_cases hb : '@' ∈ b.data <;>
      simp [EmailAddress.new, validate_email, he, hb, Bind.bind, Except.bind] at h
    have hx := Except.ok.inj h
    subst hx
    exact ⟨he, hb⟩
  · intro x y v h
    by_cases hv : '@' ∈ v.data <;>
      simp [EmailAddress.setEmail, validate_email, hv, Bind.bind, Except.bind] at h
    have hx := Except.ok.inj h
    subst hx
    exact ⟨hv, rfl⟩
  · intro x y v h
    by_cases hv : '@' ∈ v.data <;>
      simp [EmailAddress.setBackupEmail, validate_email, hv, Bind.bind, Except.bind] at h
    have hx := Except.ok.inj h
    subst hx
    exact ⟨hv, rfl⟩
  · intro st c ht hs e he
    by_cases hc : c (st.table ++ (assignIds st.nextId st.staged).1) = true
    · simp [SessionState.commit, hc] at he
      rcases he with hmem | hmem
      · exact ht e hmem
      · rcases assignIds_mem st.nextId st.staged e hmem with ⟨e0, hm, h1, h2, _⟩
        have := hs e0 hm
        exact ⟨h1 ▸ this.1, h2 ▸ this.2⟩
    · simp [SessionState.commit, hc] at he
      exact ht e he

/-- Witness for C2 at concrete inputs: a constructed instance is valid, a
mutated instance keeps its other field and gains a valid value, and a
commit of valid entities leaves only valid rows. -/
theorem C2_persisted_invariant_witness :
    (⟨none, "a@b", "c@d"⟩ : EmailAddress).Valid ∧
    ('@' ∈ (⟨none, "e@f", "c@d"⟩ : EmailAddress).email.data ∧
      (⟨none, "e@f", "c@d"⟩ : EmailAddress).backup_email
        = (⟨none, "a@b", "c@d"⟩ : EmailAddress).backup_email) ∧
    (∀ e ∈ (SessionState.commit (fun _ => true)
        ⟨[⟨some 0, "a@b", "c@d"⟩], [⟨none, "e@f", "g@h"⟩], 1, false⟩).1.table,
      e.Valid) := by
  refine ⟨?_, ?_, ?_⟩
  · exact C2_persisted_invariant.1 "a@b" "c@d" ⟨none, "a@b", "c@d"⟩ (by decide)
  · exact C2_persisted_invariant.2.1 ⟨none, "a@b", "c@d"⟩ ⟨none, "e@f", "c@d"⟩ "e@f"
      (by decide)
  · exact C2_persisted_invariant.2.2.2
      ⟨[⟨some 0, "a@b", "c@d"⟩], [⟨none, "e@f", "g@h"⟩], 1, false⟩ (fun _ => true)
      (by decide) (by decide)

/-- C3: when a commit fails with an integrity violation, the guard of
`src/bin/validations.py` reports the fixed message and rolls back, after
which the session is usable again: the table is unchanged, nothing remains
staged (so the failed commit is not retried), the failed flag is cleared,
and adding and committing a new entity succeeds when the storage constraint
accepts the resulting table. -/
theorem C3_integrity_rollback (st : SessionState) (c c2 : List EmailAddress → Bool)
    (e : EmailAddress)
    (hfail : (SessionState.commit c st).2 = false)
    (hc2 : c2 (st.table ++ [{ e with id := some st.nextId }]) = true) :
    (commitCatchingIntegrity c st).2 = some "Integrity violation blocked!" ∧
    (commitCatchingIntegrity c st).1.table = st.table ∧
    (commitCatchingIntegrity c st).1.staged = [] ∧
    (commitCatchingIntegrity c st).1.failed = false ∧
    (SessionState.commit c2 ((commitCatchingIntegrity c st).1.add e)).2 = true ∧
    (SessionState.commit c2 ((commitCatchingIntegrity c st).1.add e)).1.table
      = st.table ++ [{ e with id := some st.nextId }] := by
  by_cases hc : c (st.table ++ (assignIds st.nextId st.staged).1) = true
  · simp [SessionState.commit, hc] at hfail
  · simp [commitCatchingIntegrity, SessionState.commit, SessionState.rollback,
      SessionState.add, assignIds, hc, hc2]

/-- Witness for C3 at a concrete failing commit: the message is printed,
and after the rollback a fresh entity commits successfully. -/
theorem C3_integrity_rollback_witness :
    (commitCatchingIntegrity (fun rows => rows.isEmpty)
        ⟨[], [⟨none, "a@b", "c@d"⟩], 0, false⟩).2
      = some "Integrity violation blocked!" ∧
    (SessionState.commit (fun _ => true)
        ((commitCatchingIntegrity (fun rows => rows.isEmpty)
          ⟨[], [⟨none, "a@b", "c@d"⟩], 0, false⟩).1.add ⟨none, "x@y", "z@w"⟩)).2
      = true := by
  have h := C3_integrity_rollback ⟨[], [⟨none, "a@b", "c@d"⟩], 0, false⟩
    (fun rows => rows.isEmpty) (fun _ => true) ⟨none, "x@y", "z@w"⟩
    (by decide) (by decide)
  exact ⟨h.1, h.2.2.2.2.1⟩

/-- C4: from any starting table state, the seed routine deletes all rows,
stages 25 rows with both fields equal to the constant, and commits once;
no validation failure occurs (the result is `Except.ok`, the commit flag is
`true`), and afterwards the table holds exactly 25 rows with those field
values and nothing remains staged. -/
theorem C4_seed_result (table : List EmailAddress) (nextId : Nat) :
    ∃ st : SessionState,
      seed table nextId = Except.ok (st, true) ∧
      st.table.length = 25 ∧
      (∀ e ∈ st.table, e.email = seedConstant ∧ e.backup_email = seedConstant) ∧
      st.staged = [] := by
  have hb : buildSeedEmails 25
      = Except.ok (List.replicate 25 ⟨none, seedConstant, seedConstant⟩) := by decide
  refine ⟨⟨(assignIds nextId (List.replicate 25 ⟨none, seedConstant, seedConstant⟩)).1,
    [], (assignIds nextId (List.replicate 25 ⟨none, seedConstant, seedConstant⟩)).2,
    false⟩, ?_, ?_, ?_, rfl⟩
  · simp [seed, hb, Bind.bind, Except.bind, query_delete, SessionState.add_all,
      SessionState.commit]
    rfl
  · simp [assignIds_length]
  · intro e he
    rcases assignIds_mem nextId _ e he with ⟨e0, hm, h1, h2, _⟩
    have h0 := List.eq_of_mem_replicate hm
    subst h0
    exact ⟨h1, h2⟩

/-- C5: round trip — constructing an entity with `email='a@b.com'` and
`backup_email='c@d.com'` succeeds, and after `add` and a successful
`commit` on a fresh session over any table state, the store contains a row
with exactly those field values and a non-null storage-assigned
identifier. -/
theorem C5_round_trip (table : List EmailAddress) (n : Nat) :
    ∃ (e : EmailAddress) (st : SessionState),
      EmailAddress.new "a@b.com" "c@d.com" = Except.ok e ∧
      SessionState.commit (fun _ => true)
        (SessionState.add ⟨table, [], n, false⟩ e) = (st, true) ∧
      ∃ row ∈ queryAll st,
        row.email = "a@b.com" ∧ row.backup_email = "c@d.com" ∧
        row.id.isSome = true := by
  refine ⟨⟨none, "a@b.com", "c@d.com"⟩,
    ⟨table ++ [⟨some n, "a@b.com", "c@d.com"⟩], [], n + 1, false⟩, by decide, rfl, ?_⟩
  exact ⟨⟨some n, "a@b.com", "c@d.com"⟩, by simp [queryAll], rfl, rfl, rfl⟩

/-- C6: the validation check is exactly substring containment of `@`, in
both variants: assignment succeeds if and only if `@` occurs in the
string; the empty string fails; a string with multiple `@` characters
still passes (no further structure is checked). -/
theorem C6_containment_exact (key s : String) :
    (validate_email key s = Except.ok s ↔ '@' ∈ s.data) ∧
    validate_email key "" = Except.error "failed simple email validation" ∧
    validate_email key "a@@b" = Except.ok "a@@b" ∧
    (validate_email_models key s = Except.ok s ↔ '@' ∈ s.data) := by
  have h0 : '@' ∉ "".data := by decide
  have h1 : '@' ∈ "a@@b".data := by decide
  refine ⟨?_, by simp [validate_email, h0], by simp [validate_email, h1], ?_⟩ <;>
    by_cases h : '@' ∈ s.data <;> simp [validate_email, validate_email_models, h]

/-- C7: the bulk delete-all operation leaves the entity table with zero
rows from any state, acting immediately on storage: the staged entities,
next key and failure flag of the unit-of-work are untouched. -/
theorem C7_bulk_delete (st : SessionState) :
    (query_delete st).table.length = 0 ∧
    (query_delete st).staged = st.staged ∧
    (query_delete st).nextId = st.nextId ∧
    (query_delete st).failed = st.failed :=
  ⟨rfl, rfl, rfl, rfl⟩

/-- After `create_all`, every declared table exists. -/
theorem create_all_mem (declared : List String) (s : DBSchema) :
    ∀ t ∈ declared, t ∈ (create_all declared s).tables := by
  intro t ht
  simp only [create_all]
  by_cases hm : t ∈ s.tables
  · exact List.mem_append.mpr (Or.inl hm)
  · exact List.mem_append.mpr (Or.inr (List.mem_filter.mpr ⟨ht, by simp [hm]⟩))

/-- When every declared table already exists, `create_all` is a no-op. -/
theorem create_all_noop (declared : List String) (s : DBSchema)
    (h : ∀ t ∈ declared, t ∈ s.tables) : create_all declared s = s := by
  have hnil : declared.filter (fun t => decide (t ∉ s.tables)) = [] := by
    rw [List.filter_eq_nil_iff]
    intro a ha
    simp [h a ha]
  unfold create_all
  rw [hnil, List.append_nil]

/-- C8: schema initialization is idempotent — running `create_all` twice
from any state equals running it once, it never touches existing rows, and
when every declared table already exists it is a no-op. -/
theorem C8_create_all_idempotent (declared : List String) (s : DBSchema) :
    create_all declared (create_all declared s) = create_all declared s ∧
    (create_all declared s).rows = s.rows ∧
    ((∀ t ∈ declared, t ∈ s.tables) → create_all declared s = s) :=
  ⟨create_all_noop declared (create_all declared s) (create_all_mem declared s),
    rfl, create_all_noop declared s⟩

/-- Witness for C8 at a concrete schema where the declared table already
exists: `create_all` is a no-op. -/
theorem C8_create_all_idempotent_witness :
    create_all ["address"] ⟨["address"], []⟩ = ⟨["address"], []⟩ :=
  (C8_create_all_idempotent ["address"] ⟨["address"], []⟩).2.2 (by decide)

/-- C9: the standalone and Flask-embedded entity variants implement the
same acceptance predicate — each accepts a string exactly when the other
does — and both reject with the same error kind (a value error); the two
differ only in the capitalisation of the error message (equal after
lower-casing, unequal verbatim) and in the table name. -/
theorem C9_variants_agree (key s : String) :
    (validate_email key s = Except.ok s ↔ validate_email_models key s = Except.ok s) ∧
    (validate_email key s = Except.error "failed simple email validation" ↔
      validate_email_models key s = Except.error "Failed simple email validation") ∧
    ('@' ∉ s.data →
      validate_email_dyn key (PyVal.str s)
          = Except.error (PyError.valueError "failed simple email validation") ∧
      validate_email_dyn_models key (PyVal.str s)
          = Except.error (PyError.valueError "Failed simple email validation")) ∧
    "failed simple email validation".data.map Char.toLower
      = "Failed simple email validation".data.map Char.toLower ∧
    (("failed simple email validation" == "Failed simple email validation") = false) ∧
    ((bin_tablename == models_tablename) = false) := by
  refine ⟨?_, ?_, fun h => ?_, by decide, by decide, by decide⟩
  · by_cases h : '@' ∈ s.data <;> simp [validate_email, validate_email_models, h]
  · by_cases h : '@' ∈ s.data <;> simp [validate_email, validate_email_models, h]
  · simp [validate_email_dyn, validate_email_dyn_models, h]

/-- Witness for C9 at a concrete rejected input: both dynamic variants
raise a value error carrying their respective messages. -/
theorem C9_variants_agree_witness :
    validate_email_dyn "email" (PyVal.str "nope")
        = Except.error (PyError.valueError "failed simple email validation") ∧
    validate_email_dyn_models "email" (PyVal.str "nope")
        = Except.error (PyError.valueError "Failed simple email validation") :=
  (C9_variants_agree "email" "nope").2.2.1 (by decide)

/-- C10: the validation hook is only total on strings — on the non-string
value `None`, the containment test raises a `TypeError` (not the
documented value error) in both variants, while on any string argument no
`TypeError` can arise. -/
theorem C10_nonstring_type_error (key s : String) :
    validate_email_dyn key PyVal.pynone
        = Except.error (PyError.typeError "argument of type NoneType is not iterable") ∧
    validate_email_dyn_models key PyVal.pynone
        = Except.error (PyError.typeError "argument of type NoneType is not iterable") ∧
    isTypeError (validate_email_dyn key (PyVal.str s)) = false ∧
    isTypeError (validate_email_dyn_models key (PyVal.str s)) = false := by
  refine ⟨rfl, rfl, ?_, ?_⟩ <;> by_cases h : '@' ∈ s.data <;>
    simp [validate_email_dyn, validate_email_dyn_models, isTypeError, h]

/-- Witness for C4 at a concrete starting state: seeding the empty table
yields 25 constant rows. -/
theorem C4_seed_result_witness :
    ∃ st : SessionState,
      seed [] 0 = Except.ok (st, true) ∧
      st.table.length = 25 ∧
      (∀ e ∈ st.table, e.email = seedConstant ∧ e.backup_email = seedConstant) ∧
      st.staged = [] :=
  C4_seed_result [] 0
